import Mathlib

/-!
Verification of the device-capability profiler (`common/profiler.h`,
`common/profiler.cpp`).

The C++ code is shallowly embedded as follows.

* A C string (`const char *`, NUL-terminated) is modelled by the list of its
  bytes before the terminating NUL (`List Nat`, each byte `< 256` and `≠ 0`
  for a well-formed populated string).
* `uint32_t`, `float`, `size_t` values are modelled by their bit patterns as
  natural numbers (`< 2^32` resp. `< 2^64`); `memcpy` of such a value into a
  byte buffer lays the pattern out in little-endian byte order (the layout of
  the x86-64/aarch64 hosts the code targets).  Floats are treated purely as
  4-byte bit patterns, which is exactly how the codec moves them.
* A byte buffer (`char *`) is a `List Nat`; `memcpy(dst + pos, src, n)`
  followed by `ptr += n` on the write side is `memcpyAt`, and the read-side
  `memcpy(&x, ptr, n); ptr += n` is `List.take`/`List.drop` of the modelled
  buffer.
* `malloc(total_size)` returns uninitialised bytes: the serializer receives
  the fresh allocation as an explicit `junk` argument of length `total_size`.

Note: the checked-in `profiler.h` and `profiler.cpp` diverge slightly
(`profiler.cpp` accesses `dev_info->disk_read_bandwidth` directly while the
header declares a `disk_props` sub-struct).  The `.cpp` definitions of
`serialize`/`deserialize`/`device_print_props` are what is verified here, so
the record carries the `disk_read_bandwidth` field those functions use; the
remaining fields follow `profiler.h`.
-/

/-! ## Little-endian byte encoding of fixed-width integers -/

/-- The `w` little-endian bytes of the bit pattern `n` (model of `memcpy`
from a `w`-byte integer/float object). -/
def natToLE : Nat → Nat → List Nat
  | 0, _ => []
  | w + 1, n => n % 256 :: natToLE w (n / 256)

/-- Read a little-endian byte list back as a natural number (model of
`memcpy` into a `w`-byte integer object). -/
def leToNat : List Nat → Nat
  | [] => 0
  | b :: bs => b + 256 * leToNat bs

theorem length_natToLE (w n : Nat) : (natToLE w n).length = w := by
  induction w generalizing n with
  | zero => rfl
  | succ w ih => simp [natToLE, ih]

theorem leToNat_natToLE (w n : Nat) : leToNat (natToLE w n) = n % 256 ^ w := by
  induction w generalizing n with
  | zero => simp [natToLE, leToNat, Nat.mod_one]
  | succ w ih =>
      simp only [natToLE, leToNat, ih]
      rw [pow_succ, mul_comm (256 ^ w) 256, Nat.mod_mul]

theorem leToNat_natToLE_of_lt {w n : Nat} (h : n < 256 ^ w) :
    leToNat (natToLE w n) = n := by
  rw [leToNat_natToLE, Nat.mod_eq_of_lt h]

/-- A 4-byte unsigned integer or `float` bit pattern on the wire. -/
def encU32 (n : Nat) : List Nat := natToLE 4 n

/-- A platform-word-size (`size_t`, 8 bytes on the targeted hosts) value on
the wire. -/
def encU64 (n : Nat) : List Nat := natToLE 8 n

theorem length_encU32 (n : Nat) : (encU32 n).length = 4 := length_natToLE 4 n

theorem length_encU64 (n : Nat) : (encU64 n).length = 8 := length_natToLE 8 n

/-! ## Data model (`profiler.h`)

Structures mirror the C declarations field for field.  `float` fields carry
the 32-bit pattern as a `Nat`; `int64_t` fields are `Int`; `const char *`
fields are byte lists as described in the header comment. -/

/-- `struct cpu_props` (profiler.h:12-31). -/
structure cpu_props where
  name : List Nat
  description : List Nat
  cores : Nat
  flops_f32_f32 : Nat
  flops_f16_f32 : Nat
  flops_q4k_f32 : Nat
  flops_q6k_f32 : Nat
  flops_q80_f32 : Nat

/-- `struct memory_info` (profiler.h:33-46): five packed 4-byte floats,
`sizeof(struct memory_info) = 20`. -/
structure memory_info where
  total_physical : Nat
  available_physical : Nat
  total_swap : Nat
  available_swap : Nat
  cpu_read_ram_bw : Nat

/-- `struct gpu_support` (profiler.h:48-65): seven 1-byte `bool`s,
`sizeof(struct gpu_support) = 7`. -/
structure gpu_support where
  metal : Bool
  cuda : Bool
  vulkan : Bool
  kompute : Bool
  gpublas : Bool
  blas : Bool
  sycl : Bool

/-- `struct gpu_props` (profiler.h:67-102). -/
structure gpu_props where
  name : List Nat
  description : List Nat
  memory_free : Nat
  memory_total : Nat
  metal_read_vram_bw : Nat
  metal_flops_f32_f32 : Nat
  metal_flops_f16_f32 : Nat
  metal_flops_q4k_f32 : Nat
  metal_flops_q6k_f32 : Nat
  metal_flops_q80_f32 : Nat
  cuda_read_vram_bw : Nat
  cuda_flops_f32_f32 : Nat
  cuda_flops_f16_f32 : Nat
  cuda_flops_q4k_f32 : Nat
  cuda_flops_q6k_f32 : Nat
  cuda_flops_q80_f32 : Nat

/-- `struct model_flops` (profiler.h:104-129). -/
structure model_flops where
  inp_embd_ms : Nat
  output_f32_f32 : Int
  output_f16_f32 : Int
  output_q4k_f32 : Int
  output_q6k_f32 : Int
  output_q80_f32 : Int
  layer_f32_f32 : Int
  layer_f16_f32 : Int
  layer_q4k_f32 : Int
  layer_q6k_f32 : Int
  layer_q80_f32 : Int

/-- `struct model_params` (profiler.h:131-164). -/
structure model_params where
  input_f32 : Int
  input_f16 : Int
  input_q4k : Int
  input_q6k : Int
  input_q80 : Int
  output_f32 : Int
  output_f16 : Int
  output_q4k : Int
  output_q6k : Int
  output_q80 : Int
  layer_f32 : Int
  layer_f16 : Int
  layer_q4k : Int
  layer_q6k : Int
  layer_q80 : Int

/-- `struct device_info` (profiler.h:179-200, adjusted to the field set the
checked-in `profiler.cpp` actually accesses: `serialize`/`deserialize` use a
scalar `disk_read_bandwidth` float rather than the header's `disk_props`
sub-struct). -/
structure device_info where
  rank : Nat
  device_name : List Nat
  disk_read_bandwidth : Nat
  cpu_props : cpu_props
  memory : memory_info
  gpu_support : gpu_support
  gpu_props : gpu_props
  model_flops : model_flops
  model_params : model_params

/-- The `cpu_props()` default constructor: empty strings, zero numerics. -/
def cpu_props.construct : cpu_props :=
  { name := [], description := [], cores := 0, flops_f32_f32 := 0
  , flops_f16_f32 := 0, flops_q4k_f32 := 0, flops_q6k_f32 := 0
  , flops_q80_f32 := 0 }

/-- The `memory_info()` default constructor: all fields `0.0f`. -/
def memory_info.construct : memory_info :=
  { total_physical := 0, available_physical := 0, total_swap := 0
  , available_swap := 0, cpu_read_ram_bw := 0 }

/-- The `gpu_support()` default constructor: all seven flags `false`. -/
def gpu_support.construct : gpu_support :=
  { metal := false, cuda := false, vulkan := false, kompute := false
  , gpublas := false, blas := false, sycl := false }

/-- The `gpu_props()` default constructor: empty strings, zero numerics. -/
def gpu_props.construct : gpu_props :=
  { name := [], description := [], memory_free := 0, memory_total := 0
  , metal_read_vram_bw := 0, metal_flops_f32_f32 := 0
  , metal_flops_f16_f32 := 0, metal_flops_q4k_f32 := 0
  , metal_flops_q6k_f32 := 0, metal_flops_q80_f32 := 0
  , cuda_read_vram_bw := 0, cuda_flops_f32_f32 := 0, cuda_flops_f16_f32 := 0
  , cuda_flops_q4k_f32 := 0, cuda_flops_q6k_f32 := 0
  , cuda_flops_q80_f32 := 0 }

/-- The `model_flops()` default constructor: all fields zero. -/
def model_flops.construct : model_flops :=
  { inp_embd_ms := 0, output_f32_f32 := 0, output_f16_f32 := 0
  , output_q4k_f32 := 0, output_q6k_f32 := 0, output_q80_f32 := 0
  , layer_f32_f32 := 0, layer_f16_f32 := 0, layer_q4k_f32 := 0
  , layer_q6k_f32 := 0, layer_q80_f32 := 0 }

/-- The `model_params()` default constructor: all fields zero. -/
def model_params.construct : model_params :=
  { input_f32 := 0, input_f16 := 0, input_q4k := 0, input_q6k := 0
  , input_q80 := 0, output_f32 := 0, output_f16 := 0, output_q4k := 0
  , output_q6k := 0, output_q80 := 0, layer_f32 := 0, layer_f16 := 0
  , layer_q4k := 0, layer_q6k := 0, layer_q80 := 0 }

/-- The `device_info()` default constructor (profiler.h:190-199). -/
def device_info.construct : device_info :=
  { rank := 0, device_name := [], disk_read_bandwidth := 0
  , cpu_props := cpu_props.construct, memory := memory_info.construct
  , gpu_support := gpu_support.construct, gpu_props := gpu_props.construct
  , model_flops := model_flops.construct
  , model_params := model_params.construct }

/-! ## Codec (`profiler.cpp:453-591`) -/

/-- `strlen` on the modelled string: length of the bytes before the first
NUL.  On a well-formed string (no zero byte) this is just the length. -/
def strlen (s : List Nat) : Nat := (s.takeWhile (· != 0)).length

/-- The `strlen(s) + 1` bytes that `memcpy(ptr, s, len)` copies out of a
NUL-terminated string: the bytes before the NUL followed by the NUL. -/
def cstrBytes (s : List Nat) : List Nat := s.takeWhile (· != 0) ++ [0]

/-- `memcpy(buf + pos, src, src.length)` on a byte buffer. -/
def memcpyAt (buf : List Nat) (pos : Nat) (src : List Nat) : List Nat :=
  buf.take pos ++ src ++ buf.drop (pos + src.length)

/-- A sequence of `memcpy(ptr, src, n); ptr += n;` steps starting at
position `pos` of `buf` — the write half of `serialize` is exactly such a
sequence. -/
def writeSeq (buf : List Nat) (pos : Nat) : List (List Nat) → List Nat
  | [] => buf
  | c :: cs => writeSeq (memcpyAt buf pos c) (pos + c.length) cs

/-- `memcpy(ptr, &dev_info->memory, sizeof(struct memory_info))`: the five
packed floats of `memory_info` in declaration order. -/
def encMemoryInfo (m : memory_info) : List Nat :=
  encU32 m.total_physical ++ (encU32 m.available_physical ++
    (encU32 m.total_swap ++ (encU32 m.available_swap ++
      encU32 m.cpu_read_ram_bw)))

/-- The byte stored for a C++ `bool`. -/
def boolByte (b : Bool) : Nat := if b then 1 else 0

/-- `memcpy(ptr, &dev_info->gpu_support, sizeof(struct gpu_support))`: the
seven packed `bool` bytes in declaration order. -/
def encGpuSupport (g : gpu_support) : List Nat :=
  [boolByte g.metal, boolByte g.cuda, boolByte g.vulkan, boolByte g.kompute,
   boolByte g.gpublas, boolByte g.blas, boolByte g.sycl]

/-- The `total_size` computation of `serialize` (profiler.cpp:461-472):
`sizeof(uint32_t) + sizeof(size_t)*5 + the five string lengths (each
strlen+1) + sizeof(float) + sizeof(uint32_t) + sizeof(struct memory_info)
+ sizeof(struct gpu_support) + sizeof(float)*2`. -/
def serializedSize (d : device_info) : Nat :=
  4 + 8 * 5
    + (strlen d.device_name + 1)
    + (strlen d.cpu_props.name + 1)
    + (strlen d.cpu_props.description + 1)
    + (strlen d.gpu_props.name + 1)
    + (strlen d.gpu_props.description + 1)
    + 4 + 4 + 20 + 7 + 4 * 2

/-- The sixteen `memcpy` source operands of `serialize`
(profiler.cpp:477-523), in program order. -/
def serializeChunks (d : device_info) : List (List Nat) :=
  [ encU32 d.rank
  , encU64 (strlen d.device_name + 1), cstrBytes d.device_name
  , encU64 (strlen d.cpu_props.name + 1), cstrBytes d.cpu_props.name
  , encU64 (strlen d.cpu_props.description + 1)
  , cstrBytes d.cpu_props.description
  , encU64 (strlen d.gpu_props.name + 1), cstrBytes d.gpu_props.name
  , encU64 (strlen d.gpu_props.description + 1)
  , cstrBytes d.gpu_props.description
  , encU32 d.disk_read_bandwidth
  , encU32 d.cpu_props.cores
  , encMemoryInfo d.memory
  , encGpuSupport d.gpu_support
  , encU32 d.gpu_props.memory_free
  , encU32 d.gpu_props.memory_total ]

/-- `size_t serialize(const struct device_info *, char **)`
(profiler.cpp:453-526).  `junk` is the uninitialised content of the
`malloc(total_size)` allocation; the result is the written buffer together
with the returned `total_size`. -/
def serialize (d : device_info) (junk : List Nat) : List Nat × Nat :=
  (writeSeq junk 0 (serializeChunks d), serializedSize d)

/-- `memcpy(&dev_info->memory, ptr, sizeof(struct memory_info))`: rebuild
the five packed floats from 20 buffer bytes. -/
def decMemoryInfo (bs : List Nat) : memory_info :=
  { total_physical := leToNat (bs.take 4)
  , available_physical := leToNat ((bs.drop 4).take 4)
  , total_swap := leToNat (((bs.drop 4).drop 4).take 4)
  , available_swap := leToNat ((((bs.drop 4).drop 4).drop 4).take 4)
  , cpu_read_ram_bw := leToNat (((((bs.drop 4).drop 4).drop 4).drop 4).take 4) }

/-- `memcpy(&dev_info->gpu_support, ptr, sizeof(struct gpu_support))`:
rebuild the seven packed `bool` bytes (a nonzero byte reads back as
`true`). -/
def decGpuSupport (bs : List Nat) : gpu_support :=
  match bs with
  | b0 :: b1 :: b2 :: b3 :: b4 :: b5 :: b6 :: _ =>
      { metal := b0 != 0, cuda := b1 != 0, vulkan := b2 != 0
      , kompute := b3 != 0, gpublas := b4 != 0, blas := b5 != 0
      , sycl := b6 != 0 }
  | _ => gpu_support.construct

/-- `void deserialize(const char * buffer, struct device_info * dev_info)`
(profiler.cpp:528-591).  The pointer walk `ptr += n` is modelled by
successive `List.drop`; each `malloc`+`memcpy` of a string chunk yields a C
string whose observable value is the copied bytes up to the first NUL. -/
def deserialize (buffer : List Nat) (dev : device_info) : device_info :=
  let rank := leToNat (buffer.take 4)
  let b1 := buffer.drop 4
  let device_name_len := leToNat (b1.take 8)
  let b2 := b1.drop 8
  let device_name := (b2.take device_name_len).takeWhile (· != 0)
  let b3 := b2.drop device_name_len
  let cpu_name_len := leToNat (b3.take 8)
  let b4 := b3.drop 8
  let cpu_name := (b4.take cpu_name_len).takeWhile (· != 0)
  let b5 := b4.drop cpu_name_len
  let cpu_description_len := leToNat (b5.take 8)
  let b6 := b5.drop 8
  let cpu_description := (b6.take cpu_description_len).takeWhile (· != 0)
  let b7 := b6.drop cpu_description_len
  let gpu_name_len := leToNat (b7.take 8)
  let b8 := b7.drop 8
  let gpu_name := (b8.take gpu_name_len).takeWhile (· != 0)
  let b9 := b8.drop gpu_name_len
  let gpu_description_len := leToNat (b9.take 8)
  let b10 := b9.drop 8
  let gpu_description := (b10.take gpu_description_len).takeWhile (· != 0)
  let b11 := b10.drop gpu_description_len
  let disk_read_bandwidth := leToNat (b11.take 4)
  let b12 := b11.drop 4
  let cores := leToNat (b12.take 4)
  let b13 := b12.drop 4
  let memory := decMemoryInfo (b13.take 20)
  let b14 := b13.drop 20
  let gs := decGpuSupport (b14.take 7)
  let b15 := b14.drop 7
  let memory_free := leToNat (b15.take 4)
  let b16 := b15.drop 4
  let memory_total := leToNat (b16.take 4)
  { dev with
    rank := rank
    device_name := device_name
    disk_read_bandwidth := disk_read_bandwidth
    cpu_props := { dev.cpu_props with
      name := cpu_name, description := cpu_description, cores := cores }
    memory := memory
    gpu_support := gs
    gpu_props := { dev.gpu_props with
      name := gpu_name, description := gpu_description
      memory_free := memory_free, memory_total := memory_total } }

/-- The wire layout of §4.3 of the spec, written out as one concatenation:
rank, then five length-prefixed NUL-terminated strings, then
disk_read_bandwidth, cpu cores, the memory_info block, the gpu_support
block, gpu memory_free and gpu memory_total. -/
def layoutBytes (r : Nat) (s1 s2 s3 s4 s5 : List Nat) (drb cores : Nat)
    (m : memory_info) (g : gpu_support) (gmf gmt : Nat) : List Nat :=
  encU32 r ++ (encU64 (s1.length + 1) ++ ((s1 ++ [0]) ++
    (encU64 (s2.length + 1) ++ ((s2 ++ [0]) ++
      (encU64 (s3.length + 1) ++ ((s3 ++ [0]) ++
        (encU64 (s4.length + 1) ++ ((s4 ++ [0]) ++
          (encU64 (s5.length + 1) ++ ((s5 ++ [0]) ++
            (encU32 drb ++ (encU32 cores ++ (encMemoryInfo m ++
              (encGpuSupport g ++ (encU32 gmf ++
                (encU32 gmt ++ []))))))))))))))))

/-- A well-formed populated C string: no interior NUL byte (so `strlen`
sees the whole list) and short enough for its length prefix to fit in a
`size_t`. -/
def wfStr (s : List Nat) : Prop :=
  (∀ b ∈ s, b ≠ 0) ∧ s.length + 1 < 2 ^ 64

/-- All five packed floats of a `memory_info` are 32-bit patterns. -/
def wfMem (m : memory_info) : Prop :=
  m.total_physical < 2 ^ 32 ∧ m.available_physical < 2 ^ 32 ∧
    m.total_swap < 2 ^ 32 ∧ m.available_swap < 2 ^ 32 ∧
      m.cpu_read_ram_bw < 2 ^ 32

/-- A populated `device_info` as the codec receives it: every string field
well formed, every 4-byte field a 32-bit pattern (all guaranteed by the C
types; stated explicitly for the `Nat`-valued model). -/
def wfDevice (d : device_info) : Prop :=
  d.rank < 2 ^ 32 ∧ wfStr d.device_name ∧ wfStr d.cpu_props.name ∧
    wfStr d.cpu_props.description ∧ wfStr d.gpu_props.name ∧
      wfStr d.gpu_props.description ∧ d.disk_read_bandwidth < 2 ^ 32 ∧
        d.cpu_props.cores < 2 ^ 32 ∧ wfMem d.memory ∧
          d.gpu_props.memory_free < 2 ^ 32 ∧ d.gpu_props.memory_total < 2 ^ 32

instance (s : List Nat) : Decidable (wfStr s) := by
  unfold wfStr; infer_instance

instance (m : memory_info) : Decidable (wfMem m) := by
  unfold wfMem; infer_instance

instance (d : device_info) : Decidable (wfDevice d) := by
  unfold wfDevice; infer_instance

/-! ## Codec lemmas -/

theorem memcpyAt_exact (done rest src : List Nat) :
    memcpyAt (done ++ rest) done.length src =
      (done ++ src) ++ rest.drop src.length := by
  unfold memcpyAt
  rw [List.take_left, ← List.drop_drop, List.drop_left, List.append_assoc]

theorem writeSeq_chunks (cs : List (List Nat)) :
    ∀ (done rest : List Nat),
      writeSeq (done ++ rest) done.length cs =
        (done ++ cs.flatten) ++ rest.drop (cs.map List.length).sum := by
  induction cs with
  | nil => intro done rest; simp [writeSeq]
  | cons c cs ih =>
      intro done rest
      rw [writeSeq, memcpyAt_exact]
      have hlen : done.length + c.length = (done ++ c).length := by
        simp
      rw [hlen, ih (done ++ c) (rest.drop c.length)]
      simp [List.drop_drop, List.append_assoc]

theorem length_cstrBytes (s : List Nat) : (cstrBytes s).length = strlen s + 1 := by
  simp [cstrBytes, strlen]

theorem length_encMemoryInfo (m : memory_info) :
    (encMemoryInfo m).length = 20 := by
  simp [encMemoryInfo, length_encU32]

theorem length_encGpuSupport (g : gpu_support) :
    (encGpuSupport g).length = 7 := rfl

theorem sum_chunk_lengths (d : device_info) :
    ((serializeChunks d).map List.length).sum = serializedSize d := by
  simp [serializeChunks, serializedSize, length_encU32, length_encU64,
    length_cstrBytes, length_encMemoryInfo, length_encGpuSupport]
  ring

theorem serialize_join (d : device_info) (junk : List Nat)
    (hj : junk.length = serializedSize d) :
    (serialize d junk).1 = (serializeChunks d).flatten := by
  have h := writeSeq_chunks (serializeChunks d) [] junk
  simp only [List.nil_append, List.length_nil] at h
  rw [serialize, h, sum_chunk_lengths, ← hj, List.drop_length,
    List.append_nil]

theorem takeWhile_eq_self_of_ne_zero {s : List Nat} (h : ∀ b ∈ s, b ≠ 0) :
    s.takeWhile (· != 0) = s :=
  List.takeWhile_eq_self_iff.mpr fun b hb => bne_iff_ne.mpr (h b hb)

theorem serialize_eq_layoutBytes (d : device_info) (junk : List Nat)
    (hwf : wfDevice d) (hj : junk.length = serializedSize d) :
    (serialize d junk).1 =
      layoutBytes d.rank d.device_name d.cpu_props.name
        d.cpu_props.description d.gpu_props.name d.gpu_props.description
        d.disk_read_bandwidth d.cpu_props.cores d.memory d.gpu_support
        d.gpu_props.memory_free d.gpu_props.memory_total := by
  obtain ⟨-, h1, h2, h3, h4, h5, -⟩ := hwf
  rw [serialize_join d junk hj]
  simp [serializeChunks, layoutBytes, cstrBytes, strlen,
    takeWhile_eq_self_of_ne_zero h1.1, takeWhile_eq_self_of_ne_zero h2.1,
    takeWhile_eq_self_of_ne_zero h3.1, takeWhile_eq_self_of_ne_zero h4.1,
    takeWhile_eq_self_of_ne_zero h5.1]

theorem parse_u32 (n : Nat) (rest : List Nat) (h : n < 2 ^ 32) :
    leToNat ((encU32 n ++ rest).take 4) = n := by
  rw [List.take_left' (length_encU32 n)]
  exact leToNat_natToLE_of_lt (by rw [show (256 : Nat) ^ 4 = 2 ^ 32 by norm_num]; exact h)

theorem skip_u32 (n : Nat) (rest : List Nat) : (encU32 n ++ rest).drop 4 = rest :=
  List.drop_left' (length_encU32 n)

theorem parse_u64 (n : Nat) (rest : List Nat) (h : n < 2 ^ 64) :
    leToNat ((encU64 n ++ rest).take 8) = n := by
  rw [List.take_left' (length_encU64 n)]
  exact leToNat_natToLE_of_lt (by rw [show (256 : Nat) ^ 8 = 2 ^ 64 by norm_num]; exact h)

theorem skip_u64 (n : Nat) (rest : List Nat) : (encU64 n ++ rest).drop 8 = rest :=
  List.drop_left' (length_encU64 n)

theorem parse_cstr (s rest : List Nat) (h : ∀ b ∈ s, b ≠ 0) :
    (((s ++ [0]) ++ rest).take (s.length + 1)).takeWhile (· != 0) = s := by
  rw [List.take_left' (by simp), List.takeWhile_append]
  simp [takeWhile_eq_self_of_ne_zero h]

theorem skip_cstr (s rest : List Nat) :
    ((s ++ [0]) ++ rest).drop (s.length + 1) = rest :=
  List.drop_left' (by simp)

theorem parse_cstr_assoc (s rest : List Nat) (h : ∀ b ∈ s, b ≠ 0) :
    ((s ++ ([0] ++ rest)).take (s.length + 1)).takeWhile (· != 0) = s := by
  rw [← List.append_assoc]
  exact parse_cstr s rest h

theorem skip_cstr_assoc (s rest : List Nat) :
    (s ++ ([0] ++ rest)).drop (s.length + 1) = rest := by
  rw [← List.append_assoc]
  exact skip_cstr s rest

theorem parse_u32_last (n : Nat) (h : n < 2 ^ 32) :
    leToNat ((encU32 n).take 4) = n := by
  rw [← length_encU32 n, List.take_length]
  exact leToNat_natToLE_of_lt (by rw [show (256 : Nat) ^ 4 = 2 ^ 32 by norm_num]; exact h)

theorem decMemoryInfo_enc (m : memory_info) (h : wfMem m) :
    decMemoryInfo (encMemoryInfo m) = m := by
  obtain ⟨h1, h2, h3, h4, h5⟩ := h
  cases m with
  | mk a b c d e =>
      simp only [decMemoryInfo, encMemoryInfo, skip_u32] at *
      rw [parse_u32 _ _ h1, parse_u32 _ _ h2, parse_u32 _ _ h3,
        parse_u32 _ _ h4, parse_u32_last _ h5]

theorem parse_mem (m : memory_info) (rest : List Nat) (h : wfMem m) :
    decMemoryInfo ((encMemoryInfo m ++ rest).take 20) = m := by
  rw [List.take_left' (length_encMemoryInfo m), decMemoryInfo_enc m h]

theorem skip_mem (m : memory_info) (rest : List Nat) :
    (encMemoryInfo m ++ rest).drop 20 = rest :=
  List.drop_left' (length_encMemoryInfo m)

theorem boolByte_bne (b : Bool) : (boolByte b != 0) = b := by
  cases b <;> rfl

theorem parse_gpu (g : gpu_support) (rest : List Nat) :
    decGpuSupport ((encGpuSupport g ++ rest).take 7) = g := by
  rw [List.take_left' (length_encGpuSupport g)]
  cases g with
  | mk m c v k gb bl s =>
      simp [decGpuSupport, encGpuSupport, boolByte_bne]

theorem skip_gpu (g : gpu_support) (rest : List Nat) :
    (encGpuSupport g ++ rest).drop 7 = rest :=
  List.drop_left' (length_encGpuSupport g)

theorem deserialize_layoutBytes (r : Nat) (s1 s2 s3 s4 s5 : List Nat)
    (drb cores : Nat) (m : memory_info) (g : gpu_support) (gmf gmt : Nat)
    (rest : List Nat) (dev : device_info)
    (hr : r < 2 ^ 32) (h1 : wfStr s1) (h2 : wfStr s2) (h3 : wfStr s3)
    (h4 : wfStr s4) (h5 : wfStr s5) (hdrb : drb < 2 ^ 32)
    (hcores : cores < 2 ^ 32) (hm : wfMem m) (hgmf : gmf < 2 ^ 32)
    (hgmt : gmt < 2 ^ 32) :
    deserialize (layoutBytes r s1 s2 s3 s4 s5 drb cores m g gmf gmt ++ rest)
        dev =
      { dev with
        rank := r
        device_name := s1
        disk_read_bandwidth := drb
        cpu_props := { dev.cpu_props with
          name := s2, description := s3, cores := cores }
        memory := m
        gpu_support := g
        gpu_props := { dev.gpu_props with
          name := s4, description := s5
          memory_free := gmf, memory_total := gmt } } := by
  obtain ⟨h1z, h1l⟩ := h1
  obtain ⟨h2z, h2l⟩ := h2
  obtain ⟨h3z, h3l⟩ := h3
  obtain ⟨h4z, h4l⟩ := h4
  obtain ⟨h5z, h5l⟩ := h5
  have er : ∀ t, leToNat ((encU32 r ++ t).take 4) = r :=
    fun t => parse_u32 r t hr
  have el1 : ∀ t, leToNat ((encU64 (s1.length + 1) ++ t).take 8) = s1.length + 1 :=
    fun t => parse_u64 _ t h1l
  have el2 : ∀ t, leToNat ((encU64 (s2.length + 1) ++ t).take 8) = s2.length + 1 :=
    fun t => parse_u64 _ t h2l
  have el3 : ∀ t, leToNat ((encU64 (s3.length + 1) ++ t).take 8) = s3.length + 1 :=
    fun t => parse_u64 _ t h3l
  have el4 : ∀ t, leToNat ((encU64 (s4.length + 1) ++ t).take 8) = s4.length + 1 :=
    fun t => parse_u64 _ t h4l
  have el5 : ∀ t, leToNat ((encU64 (s5.length + 1) ++ t).take 8) = s5.length + 1 :=
    fun t => parse_u64 _ t h5l
  have ec1 : ∀ t, ((s1 ++ ([0] ++ t)).take (s1.length + 1)).takeWhile (· != 0) = s1 :=
    fun t => parse_cstr_assoc s1 t h1z
  have ec2 : ∀ t, ((s2 ++ ([0] ++ t)).take (s2.length + 1)).takeWhile (· != 0) = s2 :=
    fun t => parse_cstr_assoc s2 t h2z
  have ec3 : ∀ t, ((s3 ++ ([0] ++ t)).take (s3.length + 1)).takeWhile (· != 0) = s3 :=
    fun t => parse_cstr_assoc s3 t h3z
  have ec4 : ∀ t, ((s4 ++ ([0] ++ t)).take (s4.length + 1)).takeWhile (· != 0) = s4 :=
    fun t => parse_cstr_assoc s4 t h4z
  have ec5 : ∀ t, ((s5 ++ ([0] ++ t)).take (s5.length + 1)).takeWhile (· != 0) = s5 :=
    fun t => parse_cstr_assoc s5 t h5z
  have edrb : ∀ t, leToNat ((encU32 drb ++ t).take 4) = drb :=
    fun t => parse_u32 drb t hdrb
  have ecores : ∀ t, leToNat ((encU32 cores ++ t).take 4) = cores :=
    fun t => parse_u32 cores t hcores
  have em : ∀ t, decMemoryInfo ((encMemoryInfo m ++ t).take 20) = m :=
    fun t => parse_mem m t hm
  have egmf : ∀ t, leToNat ((encU32 gmf ++ t).take 4) = gmf :=
    fun t => parse_u32 gmf t hgmf
  have egmt : ∀ t, leToNat ((encU32 gmt ++ t).take 4) = gmt :=
    fun t => parse_u32 gmt t hgmt
  simp only [deserialize, layoutBytes, List.append_assoc, List.nil_append,
    er, skip_u32, el1, el2, el3, el4, el5, skip_u64, ec1, ec2, ec3, ec4,
    ec5, skip_cstr_assoc, edrb, ecores, em, skip_mem, parse_gpu, skip_gpu, egmf,
    egmt]

/-! ## OS queries (`profiler.cpp:49-195`)

The `#if defined(...)` chain selects one of three recognised platforms (or
falls through to the default branch); the results of the underlying system
calls are supplied by an `OsEnv` environment.  An `Option` value of `none`
models the call reporting failure (`sysctl`/`GetPerformanceInfo` returning
nonzero/false, `/proc/meminfo` missing or lacking the wanted line,
`host_statistics64` not returning `KERN_SUCCESS`). -/

/-- The platform selected by the preprocessor conditionals. -/
inductive Platform
  | windows
  | linux
  | macos
  | other

/-- Results of the platform system calls consulted by the three query
functions.  `win_memstatus` is `none` when `GlobalMemoryStatusEx` fails, in
which case the `MEMORYSTATUSEX` fields read afterwards are the
uninitialised stack contents `win_uninit_avail`/`win_uninit_total` (the
code never checks that call). -/
structure OsEnv where
  win_nprocs : Nat
  linux_nprocs : Int
  mac_availcpu : Option Nat
  mac_ncpu : Option Nat
  win_memstatus : Option (Nat × Nat)
  win_uninit_avail : Nat
  win_uninit_total : Nat
  linux_memavailable_kb : Option Nat
  linux_sysinfo : Option (Nat × Nat)
  mac_vmstats : Option (Nat × Nat × Nat)
  mac_memsize : Option Nat
  win_perfinfo : Option (Nat × Nat × Nat)
  linux_swaptotal_kb : Option Nat
  linux_swapfree_kb : Option Nat
  mac_swapusage : Option (Nat × Nat)

/-- `uint32_t device_cpu_cores(void)` (profiler.cpp:49-74).
`core_count` starts at 1; Windows copies `dwNumberOfProcessors` (a DWORD)
unchecked; Linux assigns the raw `sysconf(_SC_NPROCESSORS_ONLN)` result to
the `unsigned int` with no failure check (a `long` converted modulo 2^32);
macOS falls back from `HW_AVAILCPU` to `HW_NCPU` to the default 1 whenever
`sysctl` fails or reports a count below 1. -/
def device_cpu_cores (p : Platform) (env : OsEnv) : Nat :=
  match p with
  | .windows => env.win_nprocs % 2 ^ 32
  | .linux => (env.linux_nprocs % (2 ^ 32 : Int)).toNat
  | .macos =>
      match env.mac_availcpu with
      | some n =>
          if n < 1 then
            match env.mac_ncpu with
            | some k => if k < 1 then 1 else k
            | none => 1
          else n
      | none =>
          match env.mac_ncpu with
          | some k => if k < 1 then 1 else k
          | none => 1
  | .other => 1

/-- `uint64_t device_physical_memory(bool available)`
(profiler.cpp:76-134).  `memory` starts at 0; the Windows branch reads the
`MEMORYSTATUSEX` fields without checking `GlobalMemoryStatusEx`; the Linux
branch parses `MemAvailable:` from `/proc/meminfo` (in kB) or calls
`sysinfo` for the total; the macOS branch uses Mach VM statistics
(`(free + inactive) * pagesize`) or `sysctl(HW_MEMSIZE)`. -/
def device_physical_memory (p : Platform) (available : Bool) (env : OsEnv) : Nat :=
  match p with
  | .windows =>
      match env.win_memstatus with
      | some s => if available then s.1 else s.2
      | none => if available then env.win_uninit_avail else env.win_uninit_total
  | .linux =>
      if available then
        match env.linux_memavailable_kb with
        | some kb => kb * 1024
        | none => 0
      else
        match env.linux_sysinfo with
        | some s => s.1 * s.2
        | none => 0
  | .macos =>
      if available then
        match env.mac_vmstats with
        | some s => (s.1 + s.2.1) * s.2.2
        | none => 0
      else
        match env.mac_memsize with
        | some sz => sz
        | none => 0
  | .other => 0

/-- `uint64_t device_swap_memory(bool available)` (profiler.cpp:136-195).
`swap_memory` starts at 0; Windows uses `GetPerformanceInfo` (checked):
`(PageFileTotal - PageFileUsage) * PageSize` when `available`, else
`PageFileTotal * PageSize`; Linux parses `SwapTotal:`/`SwapFree:` (kB) from
`/proc/meminfo` with both accumulators starting at 0; macOS uses
`sysctl(VM_SWAPUSAGE)` (checked). -/
def device_swap_memory (p : Platform) (available : Bool) (env : OsEnv) : Nat :=
  match p with
  | .windows =>
      match env.win_perfinfo with
      | some s => if available then (s.1 - s.2.1) * s.2.2 else s.1 * s.2.2
      | none => 0
  | .linux =>
      let total_swap := match env.linux_swaptotal_kb with
        | some kb => kb * 1024
        | none => 0
      let free_swap := match env.linux_swapfree_kb with
        | some kb => kb * 1024
        | none => 0
      if available then free_swap else total_swap
  | .macos =>
      match env.mac_swapusage with
      | some s => if available then s.1 else s.2
      | none => 0
  | .other => 0

/-! ## Benchmark harness (`profiler.cpp:197-273`)

Timing and I/O effects are supplied by environments; elapsed times are
rationals (the idealisation of the `double` second counts), and a thrown
`std::exception` anywhere inside the `try` block is modelled by a single
flag, since every throw lands in the same `catch` which logs and falls
through to `return speed` with `speed` still 0. -/

/-- Environment for one `device_disk_read_bw` call. -/
structure DiskEnv where
  openOk : Bool
  fileBytes : Nat
  throwsExc : Bool
  elapsed : ℚ

/-- `uint64_t device_disk_read_bw(const char * test_file, size_t
buffer_size_mb)` (profiler.cpp:197-236).  `speed` starts at 0; an
unopenable file or a short read (`!file` after `read`, i.e. fewer than
`buffer_size` bytes delivered) returns it unchanged; otherwise the speed is
`buffer.size() / elapsed` truncated to `uint64_t` when the elapsed time is
positive.  The function is total: every `std::exception` is caught, logged
and turned into the current (zero) `speed`. -/
def device_disk_read_bw (env : DiskEnv) (buffer_size_mb : Nat) : Nat :=
  let speed := 0
  let buffer_size := buffer_size_mb * 1024 * 1024
  if env.openOk = false then speed
  else if env.throwsExc then speed
  else if env.fileBytes < buffer_size then speed
  else if 0 < env.elapsed then
    Int.toNat ⌊(buffer_size : ℚ) / env.elapsed⌋
  else speed

/-- Environment for one `device_memory_bw` call. -/
structure MemEnv where
  throwsExc : Bool
  elapsedWrite : ℚ
  elapsedRead : ℚ

/-- The `volatile char temp` accumulation of the strided read loop
(profiler.cpp:255-258): bytes at indices 0, 64, 128, … summed into a
`char`.  The value is discarded by the source as well; it exists only to
force the reads. -/
def stridedTemp (buffer : List Nat) : Nat :=
  (List.range ((buffer.length + 63) / 64)).foldl
    (fun t k => (t + buffer.getD (64 * k) 0) % 256) 0

/-- `uint64_t device_memory_bw(size_t buffer_size_mb)`
(profiler.cpp:238-273).  `speed` starts at 0; the buffer is allocated
filled with 1, `memset` overwrites it with `0xAB`, the write and read
elapsed times produce `test_size / elapsed` each, and the result is the
mean of the two speeds truncated to `uint64_t`.  Any exception is caught
and yields the initial 0. -/
def device_memory_bw (env : MemEnv) (buffer_size_mb : Nat) : Nat :=
  let speed := 0
  let test_size := buffer_size_mb * 1024 * 1024
  if env.throwsExc then speed
  else
    let buffer := List.replicate test_size (1 : Nat)
    let buffer2 := buffer.map fun _ => 0xAB
    let write_speed : ℚ := (test_size : ℚ) / env.elapsedWrite
    let _temp := stridedTemp buffer2
    let read_speed : ℚ := (test_size : ℚ) / env.elapsedRead
    Int.toNat ⌊(write_speed + read_speed) / 2⌋

/-! ## Table printing (`profiler.cpp:314-450`) -/

/-- The assertion sweep of the first header loop of `device_print_props`
(profiler.cpp:317-320): `GGML_ASSERT(dev_info_set[i].rank == i)` for each
`i`; the result is `true` exactly when no assertion aborts the print. -/
def assertRanks : Nat → List device_info → Bool
  | _, [] => true
  | i, d :: ds => if d.rank = i then assertRanks (i + 1) ds else false

/-- `void device_print_props(struct device_info * dev_info_set, int n)`
(profiler.cpp:314-450), abstracted to its only semantic content: whether
the rank assertions at the top of the table all hold (printing itself is
pure presentation).  `n` is the length of the record array. -/
def device_print_props (devs : List device_info) : Bool :=
  assertRanks 0 devs

theorem assertRanks_iff (devs : List device_info) :
    ∀ k, assertRanks k devs = true ↔
      ∀ i (h : i < devs.length), devs[i].rank = k + i := by
  induction devs with
  | nil => intro k; simp [assertRanks]
  | cons d ds ih =>
      intro k
      simp only [assertRanks]
      constructor
      · intro h i hi
        have hd : d.rank = k := by
          by_contra hd
          rw [if_neg hd] at h
          exact absurd h (by simp)
        cases i with
        | zero => simpa using hd
        | succ j =>
            rw [if_pos hd] at h
            have h2 := (ih (k + 1)).mp h j (by simpa using hi)
            simp only [List.getElem_cons_succ]
            omega
      · intro hall
        have hd : d.rank = k := by simpa using hall 0 (by simp)
        rw [if_pos hd]
        exact (ih (k + 1)).mpr fun j hj => by
          have h2 := hall (j + 1) (by simpa using hj)
          simp only [List.getElem_cons_succ] at h2
          omega

/-! ## Concrete sample data used by the witnesses -/

/-- A fully populated sample record ("node-a" and friends, all numeric
fields distinct and nonzero, alternating capability flags). -/
def sampleDevice : device_info :=
  { rank := 3
  , device_name := [110, 111, 100, 101, 45, 97]
  , disk_read_bandwidth := 1069547520
  , cpu_props :=
    { name := [99, 112, 117], description := [100, 101, 115, 99]
    , cores := 8, flops_f32_f32 := 5, flops_f16_f32 := 6
    , flops_q4k_f32 := 7, flops_q6k_f32 := 9, flops_q80_f32 := 10 }
  , memory :=
    { total_physical := 11, available_physical := 12, total_swap := 13
    , available_swap := 14, cpu_read_ram_bw := 15 }
  , gpu_support :=
    { metal := true, cuda := false, vulkan := true, kompute := false
    , gpublas := true, blas := false, sycl := true }
  , gpu_props :=
    { name := [103, 112, 117], description := [103, 100]
    , memory_free := 16, memory_total := 17, metal_read_vram_bw := 18
    , metal_flops_f32_f32 := 19, metal_flops_f16_f32 := 20
    , metal_flops_q4k_f32 := 21, metal_flops_q6k_f32 := 22
    , metal_flops_q80_f32 := 23, cuda_read_vram_bw := 24
    , cuda_flops_f32_f32 := 25, cuda_flops_f16_f32 := 26
    , cuda_flops_q4k_f32 := 27, cuda_flops_q6k_f32 := 28
    , cuda_flops_q80_f32 := 29 }
  , model_flops := { model_flops.construct with output_f32_f32 := 30 }
  , model_params := { model_params.construct with input_f32 := 31 } }

/-- Uninitialised `malloc` contents matching `serializedSize sampleDevice`
(which evaluates to 110). -/
def sampleJunk : List Nat := List.replicate 110 0

/-- An environment in which every platform query reports failure (and the
Linux `sysconf` returns its error value -1). -/
def envSysconfFail : OsEnv :=
  { win_nprocs := 0, linux_nprocs := -1, mac_availcpu := none
  , mac_ncpu := none, win_memstatus := none, win_uninit_avail := 0
  , win_uninit_total := 0, linux_memavailable_kb := none
  , linux_sysinfo := none, mac_vmstats := none, mac_memsize := none
  , win_perfinfo := none, linux_swaptotal_kb := none
  , linux_swapfree_kb := none, mac_swapusage := none }

/-! ## Claims -/

/-- C1 (counterexample): a record whose CPU f32 throughput field is the bit
pattern 1 round-trips to a record whose CPU f32 throughput field is 0 (the
wire format does not carry the per-format FLOPS fields), so decoding the
encoded buffer does not reproduce every field of the source record. -/
theorem roundtrip_drops_cpu_flops :
    (deserialize
        ((serialize
            { device_info.construct with
              cpu_props := { cpu_props.construct with flops_f32_f32 := 1 } }
            (List.replicate 92 0)).1)
        device_info.construct).cpu_props.flops_f32_f32 = 0 ∧
      ({ device_info.construct with
         cpu_props := { cpu_props.construct with flops_f32_f32 := 1 }
         : device_info }).cpu_props.flops_f32_f32 = 1 := by
  constructor
  · decide
  · rfl

/-- C1 (amended): for every populated (well-formed) record `d`, any
`malloc` contents of the right size, and any trailing bytes, decoding the
encoded buffer into any target record reproduces every field the wire
format carries — rank, the five strings byte for byte, and the numeric
fields bit for bit — while fields outside the wire layout keep the decode
target's previous values. -/
theorem serialize_deserialize_roundtrip (d dev0 : device_info)
    (junk extra : List Nat) (hwf : wfDevice d)
    (hj : junk.length = serializedSize d) :
    deserialize ((serialize d junk).1 ++ extra) dev0 =
      { dev0 with
        rank := d.rank
        device_name := d.device_name
        disk_read_bandwidth := d.disk_read_bandwidth
        cpu_props := { dev0.cpu_props with
          name := d.cpu_props.name
          description := d.cpu_props.description
          cores := d.cpu_props.cores }
        memory := d.memory
        gpu_support := d.gpu_support
        gpu_props := { dev0.gpu_props with
          name := d.gpu_props.name
          description := d.gpu_props.description
          memory_free := d.gpu_props.memory_free
          memory_total := d.gpu_props.memory_total } } := by
  rw [serialize_eq_layoutBytes d junk hwf hj]
  obtain ⟨hr, h1, h2, h3, h4, h5, hdrb, hcores, hm, hgmf, hgmt⟩ := hwf
  exact deserialize_layoutBytes _ _ _ _ _ _ _ _ _ _ _ _ extra dev0
    hr h1 h2 h3 h4 h5 hdrb hcores hm hgmf hgmt

/-- C1 (witness): the round-trip theorem applied to the fully populated
sample record. -/
theorem serialize_deserialize_roundtrip_witness :
    wfDevice sampleDevice ∧ sampleJunk.length = serializedSize sampleDevice ∧
      deserialize ((serialize sampleDevice sampleJunk).1 ++ [7, 7])
          device_info.construct =
        { device_info.construct with
          rank := sampleDevice.rank
          device_name := sampleDevice.device_name
          disk_read_bandwidth := sampleDevice.disk_read_bandwidth
          cpu_props := { device_info.construct.cpu_props with
            name := sampleDevice.cpu_props.name
            description := sampleDevice.cpu_props.description
            cores := sampleDevice.cpu_props.cores }
          memory := sampleDevice.memory
          gpu_support := sampleDevice.gpu_support
          gpu_props := { device_info.construct.gpu_props with
            name := sampleDevice.gpu_props.name
            description := sampleDevice.gpu_props.description
            memory_free := sampleDevice.gpu_props.memory_free
            memory_total := sampleDevice.gpu_props.memory_total } } :=
  ⟨by decide, by decide,
    serialize_deserialize_roundtrip sampleDevice device_info.construct
      sampleJunk [7, 7] (by decide) (by decide)⟩

/-- C2: the encoder lays the record out exactly as rank, then the five
length-prefixed NUL-terminated strings (device name, cpu name, cpu
description, gpu name, gpu description), then disk_read_bandwidth, cpu
cores, the memory_info block verbatim, the gpu_support block verbatim, gpu
memory_free and gpu memory_total; and the decoder reads the same buffer
back in that order, recovering exactly those fields. -/
theorem codec_wire_order (d : device_info) (junk : List Nat)
    (dev0 : device_info) (hwf : wfDevice d)
    (hj : junk.length = serializedSize d) :
    (serialize d junk).1 =
      layoutBytes d.rank d.device_name d.cpu_props.name
        d.cpu_props.description d.gpu_props.name d.gpu_props.description
        d.disk_read_bandwidth d.cpu_props.cores d.memory d.gpu_support
        d.gpu_props.memory_free d.gpu_props.memory_total ∧
      deserialize (serialize d junk).1 dev0 =
        { dev0 with
          rank := d.rank
          device_name := d.device_name
          disk_read_bandwidth := d.disk_read_bandwidth
          cpu_props := { dev0.cpu_props with
            name := d.cpu_props.name
            description := d.cpu_props.description
            cores := d.cpu_props.cores }
          memory := d.memory
          gpu_support := d.gpu_support
          gpu_props := { dev0.gpu_props with
            name := d.gpu_props.name
            description := d.gpu_props.description
            memory_free := d.gpu_props.memory_free
            memory_total := d.gpu_props.memory_total } } := by
  have hb := serialize_eq_layoutBytes d junk hwf hj
  refine ⟨hb, ?_⟩
  obtain ⟨hr, h1, h2, h3, h4, h5, hdrb, hcores, hm, hgmf, hgmt⟩ := hwf
  rw [hb, ← List.append_nil
    (layoutBytes d.rank d.device_name d.cpu_props.name
      d.cpu_props.description d.gpu_props.name d.gpu_props.description
      d.disk_read_bandwidth d.cpu_props.cores d.memory d.gpu_support
      d.gpu_props.memory_free d.gpu_props.memory_total)]
  exact deserialize_layoutBytes _ _ _ _ _ _ _ _ _ _ _ _ [] dev0
    hr h1 h2 h3 h4 h5 hdrb hcores hm hgmf hgmt

/-- C2 (witness): the wire-order theorem applied to the sample record. -/
theorem codec_wire_order_witness :
    wfDevice sampleDevice ∧ sampleJunk.length = serializedSize sampleDevice ∧
      (serialize sampleDevice sampleJunk).1 =
        layoutBytes sampleDevice.rank sampleDevice.device_name
          sampleDevice.cpu_props.name sampleDevice.cpu_props.description
          sampleDevice.gpu_props.name sampleDevice.gpu_props.description
          sampleDevice.disk_read_bandwidth sampleDevice.cpu_props.cores
          sampleDevice.memory sampleDevice.gpu_support
          sampleDevice.gpu_props.memory_free
          sampleDevice.gpu_props.memory_total :=
  ⟨by decide, by decide,
    (codec_wire_order sampleDevice sampleJunk device_info.construct
      (by decide) (by decide)).1⟩

/-- C3: `serialize` returns exactly the total size it computed — one
4-byte rank, five 8-byte length prefixes, the five NUL-terminated string
payloads, a 4-byte float, a 4-byte unsigned, the 20-byte memory_info
block, the 7-byte gpu_support block and two 4-byte floats — the produced
buffer has exactly that many bytes, and decoding never looks at any byte
at or beyond that length (appending arbitrary bytes does not change the
decoded record). -/
theorem serialize_size_exact (d : device_info) (junk extra : List Nat)
    (dev0 : device_info) (hwf : wfDevice d)
    (hj : junk.length = serializedSize d) :
    (serialize d junk).2 =
      4 + 8 * 5 + (strlen d.device_name + 1) + (strlen d.cpu_props.name + 1)
        + (strlen d.cpu_props.description + 1)
        + (strlen d.gpu_props.name + 1)
        + (strlen d.gpu_props.description + 1) + 4 + 4 + 20 + 7 + 4 * 2 ∧
      (serialize d junk).1.length = (serialize d junk).2 ∧
      deserialize ((serialize d junk).1 ++ extra) dev0 =
        deserialize (serialize d junk).1 dev0 := by
  refine ⟨rfl, ?_, ?_⟩
  · show (serialize d junk).1.length = serializedSize d
    rw [serialize_join d junk hj, List.length_flatten, sum_chunk_lengths]
  · rw [serialize_eq_layoutBytes d junk hwf hj]
    obtain ⟨hr, h1, h2, h3, h4, h5, hdrb, hcores, hm, hgmf, hgmt⟩ := hwf
    rw [deserialize_layoutBytes _ _ _ _ _ _ _ _ _ _ _ _ extra dev0
      hr h1 h2 h3 h4 h5 hdrb hcores hm hgmf hgmt,
      ← List.append_nil
        (layoutBytes d.rank d.device_name d.cpu_props.name
          d.cpu_props.description d.gpu_props.name d.gpu_props.description
          d.disk_read_bandwidth d.cpu_props.cores d.memory d.gpu_support
          d.gpu_props.memory_free d.gpu_props.memory_total),
      deserialize_layoutBytes _ _ _ _ _ _ _ _ _ _ _ _ [] dev0
        hr h1 h2 h3 h4 h5 hdrb hcores hm hgmf hgmt]

/-- C3 (witness): the exact-size theorem applied to the sample record. -/
theorem serialize_size_exact_witness :
    wfDevice sampleDevice ∧ sampleJunk.length = serializedSize sampleDevice ∧
      (serialize sampleDevice sampleJunk).1.length =
        (serialize sampleDevice sampleJunk).2 :=
  ⟨by decide, by decide,
    (serialize_size_exact sampleDevice sampleJunk [9] device_info.construct
      (by decide) (by decide)).2.1⟩


/-- C4: `deserialize` writes only the transmitted fields; every per-format
CPU and GPU FLOPS field, both VRAM bandwidth fields, and the whole
`model_flops` and `model_params` blocks of the output record are left
exactly as they were before the call, for every buffer. -/
theorem deserialize_frame (buffer : List Nat) (dev : device_info) :
    (deserialize buffer dev).cpu_props.flops_f32_f32 = dev.cpu_props.flops_f32_f32 ∧
      (deserialize buffer dev).cpu_props.flops_f16_f32 = dev.cpu_props.flops_f16_f32 ∧
      (deserialize buffer dev).cpu_props.flops_q4k_f32 = dev.cpu_props.flops_q4k_f32 ∧
      (deserialize buffer dev).cpu_props.flops_q6k_f32 = dev.cpu_props.flops_q6k_f32 ∧
      (deserialize buffer dev).cpu_props.flops_q80_f32 = dev.cpu_props.flops_q80_f32 ∧
      (deserialize buffer dev).gpu_props.metal_read_vram_bw = dev.gpu_props.metal_read_vram_bw ∧
      (deserialize buffer dev).gpu_props.metal_flops_f32_f32 = dev.gpu_props.metal_flops_f32_f32 ∧
      (deserialize buffer dev).gpu_props.metal_flops_f16_f32 = dev.gpu_props.metal_flops_f16_f32 ∧
      (deserialize buffer dev).gpu_props.metal_flops_q4k_f32 = dev.gpu_props.metal_flops_q4k_f32 ∧
      (deserialize buffer dev).gpu_props.metal_flops_q6k_f32 = dev.gpu_props.metal_flops_q6k_f32 ∧
      (deserialize buffer dev).gpu_props.metal_flops_q80_f32 = dev.gpu_props.metal_flops_q80_f32 ∧
      (deserialize buffer dev).gpu_props.cuda_read_vram_bw = dev.gpu_props.cuda_read_vram_bw ∧
      (deserialize buffer dev).gpu_props.cuda_flops_f32_f32 = dev.gpu_props.cuda_flops_f32_f32 ∧
      (deserialize buffer dev).gpu_props.cuda_flops_f16_f32 = dev.gpu_props.cuda_flops_f16_f32 ∧
      (deserialize buffer dev).gpu_props.cuda_flops_q4k_f32 = dev.gpu_props.cuda_flops_q4k_f32 ∧
      (deserialize buffer dev).gpu_props.cuda_flops_q6k_f32 = dev.gpu_props.cuda_flops_q6k_f32 ∧
      (deserialize buffer dev).gpu_props.cuda_flops_q80_f32 = dev.gpu_props.cuda_flops_q80_f32 ∧
      (deserialize buffer dev).model_flops = dev.model_flops ∧
      (deserialize buffer dev).model_params = dev.model_params :=
  by simp [deserialize]


/-- C5: the disk read-bandwidth measurement fails soft: whenever the test
file cannot be opened, or fewer bytes than the requested buffer size are
delivered by the read, it returns exactly 0 (after logging), and the
function is total — every exception inside its try block is caught, so
nothing propagates to the caller. -/
theorem disk_read_bw_fails_soft (env : DiskEnv) (mb : Nat)
    (h : env.openOk = false ∨ env.fileBytes < mb * 1024 * 1024) :
    device_disk_read_bw env mb = 0 := by
  simp only [device_disk_read_bw]
  split_ifs with h1 h2 h3 h4
  · rfl
  · rfl
  · rfl
  · rcases h with h | h
    · exact absurd h h1
    · exact absurd h h3
  · rfl

/-- C5 (witness): a nonexistent file path (the open fails) yields 0. -/
theorem disk_read_bw_fails_soft_witness :
    DiskEnv.openOk ⟨false, 0, false, 1⟩ = false ∧
      device_disk_read_bw ⟨false, 0, false, 1⟩ 500 = 0 :=
  ⟨rfl, disk_read_bw_fails_soft ⟨false, 0, false, 1⟩ 500 (Or.inl rfl)⟩

/-- C6: the memory-bandwidth measurement reports the truncated arithmetic
mean of the write speed (`test_size` bytes over the write elapsed time)
and the read speed (`test_size` bytes over the strided-read elapsed time),
and any exception in the try block (allocation or timing) makes it return
exactly 0 without propagating. -/
theorem memory_bw_mean_or_zero (env : MemEnv) (mb : Nat) :
    (env.throwsExc = true → device_memory_bw env mb = 0) ∧
      (env.throwsExc = false → 0 < env.elapsedWrite → 0 < env.elapsedRead →
        device_memory_bw env mb =
          Int.toNat ⌊(((mb * 1024 * 1024 : Nat) : ℚ) / env.elapsedWrite +
            ((mb * 1024 * 1024 : Nat) : ℚ) / env.elapsedRead) / 2⌋) := by
  constructor
  · intro h
    simp [device_memory_bw, h]
  · intro h hw hr
    simp [device_memory_bw, h]

/-- C6 (witness): a simulated allocation failure yields exactly 0. -/
theorem memory_bw_mean_or_zero_witness :
    MemEnv.throwsExc ⟨true, 1, 1⟩ = true ∧
      device_memory_bw ⟨true, 1, 1⟩ 128 = 0 :=
  ⟨rfl, (memory_bw_mean_or_zero ⟨true, 1, 1⟩ 128).1 rfl⟩


/-- C7: a freshly constructed record has every numeric field zero, every
capability flag false, and every string field the empty string (never a
null pointer in the model, where a string is its byte content), so
`strlen` of every string field of a default record is defined and 0. -/
theorem device_info_construct_defaults :
    device_info.construct.rank = 0 ∧
      device_info.construct.device_name = [] ∧
      device_info.construct.disk_read_bandwidth = 0 ∧
      device_info.construct.cpu_props.name = [] ∧
      device_info.construct.cpu_props.description = [] ∧
      device_info.construct.cpu_props.cores = 0 ∧
      device_info.construct.cpu_props.flops_f32_f32 = 0 ∧
      device_info.construct.cpu_props.flops_f16_f32 = 0 ∧
      device_info.construct.cpu_props.flops_q4k_f32 = 0 ∧
      device_info.construct.cpu_props.flops_q6k_f32 = 0 ∧
      device_info.construct.cpu_props.flops_q80_f32 = 0 ∧
      device_info.construct.memory.total_physical = 0 ∧
      device_info.construct.memory.available_physical = 0 ∧
      device_info.construct.memory.total_swap = 0 ∧
      device_info.construct.memory.available_swap = 0 ∧
      device_info.construct.memory.cpu_read_ram_bw = 0 ∧
      device_info.construct.gpu_support.metal = false ∧
      device_info.construct.gpu_support.cuda = false ∧
      device_info.construct.gpu_support.vulkan = false ∧
      device_info.construct.gpu_support.kompute = false ∧
      device_info.construct.gpu_support.gpublas = false ∧
      device_info.construct.gpu_support.blas = false ∧
      device_info.construct.gpu_support.sycl = false ∧
      device_info.construct.gpu_props.name = [] ∧
      device_info.construct.gpu_props.description = [] ∧
      device_info.construct.gpu_props.memory_free = 0 ∧
      device_info.construct.gpu_props.memory_total = 0 ∧
      device_info.construct.gpu_props.metal_read_vram_bw = 0 ∧
      device_info.construct.gpu_props.metal_flops_f32_f32 = 0 ∧
      device_info.construct.gpu_props.metal_flops_f16_f32 = 0 ∧
      device_info.construct.gpu_props.metal_flops_q4k_f32 = 0 ∧
      device_info.construct.gpu_props.metal_flops_q6k_f32 = 0 ∧
      device_info.construct.gpu_props.metal_flops_q80_f32 = 0 ∧
      device_info.construct.gpu_props.cuda_read_vram_bw = 0 ∧
      device_info.construct.gpu_props.cuda_flops_f32_f32 = 0 ∧
      device_info.construct.gpu_props.cuda_flops_f16_f32 = 0 ∧
      device_info.construct.gpu_props.cuda_flops_q4k_f32 = 0 ∧
      device_info.construct.gpu_props.cuda_flops_q6k_f32 = 0 ∧
      device_info.construct.gpu_props.cuda_flops_q80_f32 = 0 ∧
      device_info.construct.model_flops = model_flops.construct ∧
      device_info.construct.model_params = model_params.construct ∧
      strlen device_info.construct.device_name = 0 ∧
      strlen device_info.construct.cpu_props.name = 0 ∧
      strlen device_info.construct.cpu_props.description = 0 ∧
      strlen device_info.construct.gpu_props.name = 0 ∧
      strlen device_info.construct.gpu_props.description = 0 :=
  ⟨rfl, rfl, rfl, rfl, rfl, rfl, rfl, rfl, rfl, rfl, rfl, rfl, rfl, rfl, rfl, rfl, rfl, rfl, rfl, rfl, rfl, rfl, rfl, rfl, rfl, rfl, rfl, rfl, rfl, rfl, rfl, rfl, rfl, rfl, rfl, rfl, rfl, rfl, rfl, rfl, rfl, rfl, rfl, rfl, rfl, rfl⟩


/-- C8: encoding then decoding preserves each of the seven gpu_support
flags for every record (hence for all 2^7 flag combinations, since the
record is arbitrary), and setting or clearing any single flag leaves the
other six unchanged. -/
theorem gpu_flags_roundtrip_independent (d : device_info)
    (junk extra : List Nat) (dev0 : device_info) (hwf : wfDevice d)
    (hj : junk.length = serializedSize d) :
    (deserialize ((serialize d junk).1 ++ extra) dev0).gpu_support =
        d.gpu_support ∧
      ∀ (g : gpu_support) (b : Bool),
        ({ g with metal := b } : gpu_support).cuda = g.cuda ∧
          ({ g with metal := b } : gpu_support).vulkan = g.vulkan ∧
          ({ g with metal := b } : gpu_support).kompute = g.kompute ∧
          ({ g with metal := b } : gpu_support).gpublas = g.gpublas ∧
          ({ g with metal := b } : gpu_support).blas = g.blas ∧
          ({ g with metal := b } : gpu_support).sycl = g.sycl ∧
          ({ g with cuda := b } : gpu_support).metal = g.metal ∧
          ({ g with cuda := b } : gpu_support).vulkan = g.vulkan ∧
          ({ g with cuda := b } : gpu_support).kompute = g.kompute ∧
          ({ g with cuda := b } : gpu_support).gpublas = g.gpublas ∧
          ({ g with cuda := b } : gpu_support).blas = g.blas ∧
          ({ g with cuda := b } : gpu_support).sycl = g.sycl ∧
          ({ g with vulkan := b } : gpu_support).metal = g.metal ∧
          ({ g with vulkan := b } : gpu_support).cuda = g.cuda ∧
          ({ g with vulkan := b } : gpu_support).kompute = g.kompute ∧
          ({ g with vulkan := b } : gpu_support).gpublas = g.gpublas ∧
          ({ g with vulkan := b } : gpu_support).blas = g.blas ∧
          ({ g with vulkan := b } : gpu_support).sycl = g.sycl ∧
          ({ g with kompute := b } : gpu_support).metal = g.metal ∧
          ({ g with kompute := b } : gpu_support).cuda = g.cuda ∧
          ({ g with kompute := b } : gpu_support).vulkan = g.vulkan ∧
          ({ g with kompute := b } : gpu_support).gpublas = g.gpublas ∧
          ({ g with kompute := b } : gpu_support).blas = g.blas ∧
          ({ g with kompute := b } : gpu_support).sycl = g.sycl ∧
          ({ g with gpublas := b } : gpu_support).metal = g.metal ∧
          ({ g with gpublas := b } : gpu_support).cuda = g.cuda ∧
          ({ g with gpublas := b } : gpu_support).vulkan = g.vulkan ∧
          ({ g with gpublas := b } : gpu_support).kompute = g.kompute ∧
          ({ g with gpublas := b } : gpu_support).blas = g.blas ∧
          ({ g with gpublas := b } : gpu_support).sycl = g.sycl ∧
          ({ g with blas := b } : gpu_support).metal = g.metal ∧
          ({ g with blas := b } : gpu_support).cuda = g.cuda ∧
          ({ g with blas := b } : gpu_support).vulkan = g.vulkan ∧
          ({ g with blas := b } : gpu_support).kompute = g.kompute ∧
          ({ g with blas := b } : gpu_support).gpublas = g.gpublas ∧
          ({ g with blas := b } : gpu_support).sycl = g.sycl ∧
          ({ g with sycl := b } : gpu_support).metal = g.metal ∧
          ({ g with sycl := b } : gpu_support).cuda = g.cuda ∧
          ({ g with sycl := b } : gpu_support).vulkan = g.vulkan ∧
          ({ g with sycl := b } : gpu_support).kompute = g.kompute ∧
          ({ g with sycl := b } : gpu_support).gpublas = g.gpublas ∧
          ({ g with sycl := b } : gpu_support).blas = g.blas := by
  constructor
  · rw [serialize_eq_layoutBytes d junk hwf hj]
    obtain ⟨hr, h1, h2, h3, h4, h5, hdrb, hcores, hm, hgmf, hgmt⟩ := hwf
    rw [deserialize_layoutBytes _ _ _ _ _ _ _ _ _ _ _ _ extra dev0
      hr h1 h2 h3 h4 h5 hdrb hcores hm hgmf hgmt]
  · exact fun g b => ⟨rfl, rfl, rfl, rfl, rfl, rfl, rfl, rfl, rfl, rfl, rfl, rfl, rfl, rfl, rfl, rfl, rfl, rfl, rfl, rfl, rfl, rfl, rfl, rfl, rfl, rfl, rfl, rfl, rfl, rfl, rfl, rfl, rfl, rfl, rfl, rfl, rfl, rfl, rfl, rfl, rfl, rfl⟩

/-- C8 (witness): flag preservation applied to the sample record, whose
seven flags alternate. -/
theorem gpu_flags_roundtrip_independent_witness :
    wfDevice sampleDevice ∧
      (deserialize ((serialize sampleDevice sampleJunk).1 ++ [])
          device_info.construct).gpu_support = sampleDevice.gpu_support :=
  ⟨by decide,
    (gpu_flags_roundtrip_independent sampleDevice sampleJunk []
      device_info.construct (by decide) (by decide)).1⟩


/-- C9 (counterexample): on Linux with a failing `sysconf` (return value
-1), `device_cpu_cores` does not return the default 1: the raw `long` is
converted to `unsigned int`, giving 4294967295. -/
theorem cpu_cores_linux_failure_not_one :
    device_cpu_cores Platform.linux envSysconfFail = 4294967295 ∧
      (4294967295 : Nat) ≠ 1 := by
  constructor
  · decide
  · decide

/-- C9 (amended): on any unrecognized platform the three queries return
their defaults (1 core, 0 bytes); on macOS, failure of the sysctl/Mach
queries yields those defaults for all three; on Linux the two memory
queries yield 0 on failure but `device_cpu_cores` performs no failure
check and returns the raw `sysconf` result converted to `unsigned int`;
on Windows the swap query yields 0 on failure (the physical-memory and
core-count queries are used without a failure check). -/
theorem os_query_defaults (env : OsEnv) (avail : Bool) :
    (device_cpu_cores Platform.other env = 1 ∧
      device_physical_memory Platform.other avail env = 0 ∧
      device_swap_memory Platform.other avail env = 0) ∧
    (env.mac_availcpu = none → env.mac_ncpu = none →
      device_cpu_cores Platform.macos env = 1) ∧
    (env.mac_vmstats = none →
      device_physical_memory Platform.macos true env = 0) ∧
    (env.mac_memsize = none →
      device_physical_memory Platform.macos false env = 0) ∧
    (env.mac_swapusage = none →
      device_swap_memory Platform.macos avail env = 0) ∧
    (env.linux_memavailable_kb = none →
      device_physical_memory Platform.linux true env = 0) ∧
    (env.linux_sysinfo = none →
      device_physical_memory Platform.linux false env = 0) ∧
    (env.linux_swaptotal_kb = none → env.linux_swapfree_kb = none →
      device_swap_memory Platform.linux avail env = 0) ∧
    (env.win_perfinfo = none →
      device_swap_memory Platform.windows avail env = 0) ∧
    device_cpu_cores Platform.linux env =
      (env.linux_nprocs % (2 ^ 32 : Int)).toNat := by
  refine ⟨⟨rfl, ?_, ?_⟩, ?_, ?_, ?_, ?_, ?_, ?_, ?_, ?_, rfl⟩
  · cases avail <;> rfl
  · cases avail <;> rfl
  · intro h1 h2
    simp [device_cpu_cores, h1, h2]
  · intro h
    simp [device_physical_memory, h]
  · intro h
    simp [device_physical_memory, h]
  · intro h
    cases avail <;> simp [device_swap_memory, h]
  · intro h
    simp [device_physical_memory, h]
  · intro h
    simp [device_physical_memory, h]
  · intro h1 h2
    cases avail <;> simp [device_swap_memory, h1, h2]
  · intro h
    cases avail <;> simp [device_swap_memory, h]

/-- C9 (witness): the amended theorem applied to the all-queries-fail
environment. -/
theorem os_query_defaults_witness :
    device_cpu_cores Platform.other envSysconfFail = 1 ∧
      device_cpu_cores Platform.macos envSysconfFail = 1 ∧
      device_physical_memory Platform.linux true envSysconfFail = 0 ∧
      device_swap_memory Platform.windows true envSysconfFail = 0 :=
  ⟨(os_query_defaults envSysconfFail true).1.1,
    (os_query_defaults envSysconfFail true).2.1 rfl rfl,
    (os_query_defaults envSysconfFail true).2.2.2.2.2.1 rfl,
    (os_query_defaults envSysconfFail true).2.2.2.2.2.2.2.2.1 rfl⟩

/-- C10: the table printer asserts `dev_info_set[i].rank == i` for every
index; the print completes (no assertion aborts) exactly when the records
are arranged in rank order 0..n-1, and any array violating that order
makes an assertion fire. -/
theorem print_props_rank_assert (devs : List device_info) :
    device_print_props devs = true ↔
      ∀ i (h : i < devs.length), devs[i].rank = i := by
  have h := assertRanks_iff devs 0
  simpa [device_print_props] using h

/-- C10 (witness): a single default record (rank 0) prints, and swapping
in rank 5 makes the assertion fire. -/
theorem print_props_rank_assert_witness :
    device_print_props [device_info.construct] = true ∧
      device_print_props [{ device_info.construct with rank := 5 }] = false :=
  ⟨(print_props_rank_assert [device_info.construct]).mpr (by decide),
    by decide⟩
